import Mathlib

/-!
# Verification of the Live Process Session Manager (`src/websocket.rs`)

A shallow embedding of the WebSocket session manager of the `opcode`
repository.  The Rust module keeps two `HashMap`s behind mutexes — session id
to broadcast channel sender, and session id to child-process handle — and
exposes registration, event sending, removal, process storage and
cancellation, plus the HTTP handlers `execute_claude_code` and
`cancel_execution` and the per-connection `handle_websocket` logic.

The embedding models each of these as a pure state-transition function on an
explicit `MgrState`.  Broadcast channels are identified by natural numbers
allocated by a counter (`nextChan`): `register_session` always creates a
*fresh* channel and inserts it into the session map (replacing any previous
channel for the same id, exactly as `HashMap::insert` does).  Published
events are recorded in a log, each entry tagged with the channel it was sent
on; a subscriber holding receiver `c` observes exactly the log entries whose
channel is `c`.  Child processes are modelled by a `Proc` record carrying
the outcome that the OS would give for `kill` and for `wait`.
-/

namespace Opcode

/-- Association-list maps standing in for the two `HashMap`s.  Keys are
session ids (strings).  `insertA` replaces any previous binding, as
`HashMap::insert` does; `eraseA` removes the binding, as `HashMap::remove`
does. -/
def lookupA {α : Type} (k : String) : List (String × α) → Option α
  | [] => none
  | (k', v) :: rest => if k' = k then some v else lookupA k rest

/-- Remove every binding of key `k` (a map built with `insertA` holds at
most one). -/
def eraseA {α : Type} (k : String) : List (String × α) → List (String × α)
  | [] => []
  | (k', v) :: rest => if k' = k then eraseA k rest else (k', v) :: eraseA k rest

/-- Insert, replacing any previous binding of `k` (as `HashMap::insert`). -/
def insertA {α : Type} (k : String) (v : α) (l : List (String × α)) :
    List (String × α) :=
  (k, v) :: eraseA k l

/-- The outcome of a `child.wait().await` call: `Ok(status)` with the
status's `success()` and `code()` values, or `Err` with a message. -/
inductive WaitResult : Type
  | ok (success : Bool) (code : Option Int)
  | err (msg : String)
deriving DecidableEq, Repr

/-- A spawned child process, reduced to what the manager can observe of it:
whether `kill().await` succeeds, and what `wait().await` returns. -/
structure Proc where
  killOk : Bool
  wait : WaitResult
deriving DecidableEq, Repr

/-- An event published on a session's broadcast channel.  In the source the
payload is a JSON string; the constructors record which of the module's
send sites produced it:
* `output` — a stdout line relayed verbatim by the stdout reader task;
* `errLine` — a `{"type":"error"}` message built from a stderr line;
* `complete` — the `{"type":"complete"}` message the reaper publishes on
  `wait` returning `Ok`;
* `failed` — the `{"type":"error","message":"Process error: …"}` message the
  reaper publishes on `wait` returning `Err`;
* `cancelled` — the `{"type":"cancelled"}` message `cancel_execution`
  publishes. -/
inductive WSEvent : Type
  | output (line : String)
  | errLine (line : String)
  | complete (success : Bool) (code : Option Int)
  | failed (msg : String)
  | cancelled (sid : String)
deriving DecidableEq, Repr

/-- Terminal-kind events in the sense of the specification: `Completed`,
`Failed`, `Cancelled`. -/
def WSEvent.isTerminal : WSEvent → Bool
  | .complete _ _ => true
  | .failed _ => true
  | .cancelled _ => true
  | _ => false

/-- One successful `tx.send` on a session's channel: the session id the
sender was looked up under, the channel (broadcast sender identity) it went
to, and the event. -/
structure PubEvent where
  sid : String
  chan : Nat
  ev : WSEvent
deriving DecidableEq, Repr

/-- The state of a `WebSocketManager` plus the observable history:
`sessions` and `processes` are the two maps, `nextChan` allocates fresh
broadcast channels, `log` records every successfully sent event, and
`killed` records each session id for which a `kill()` was issued. -/
structure MgrState where
  sessions : List (String × Nat)
  processes : List (String × Proc)
  nextChan : Nat
  log : List PubEvent
  killed : List String
deriving DecidableEq, Repr

/-- `WebSocketManager::new()`. -/
def MgrState.new : MgrState := ⟨[], [], 0, [], []⟩

/-- `WebSocketManager::register_session`: create a fresh broadcast channel,
insert its sender into the session map (replacing any previous sender for
this id), and return the receiver. -/
def register_session (sid : String) (s : MgrState) : Nat × MgrState :=
  (s.nextChan,
   { s with sessions := insertA sid s.nextChan s.sessions,
            nextChan := s.nextChan + 1 })

/-- `WebSocketManager::send_to_session`: if a sender is registered for the
id, send on it (append to the log); otherwise do nothing. -/
def send_to_session (sid : String) (ev : WSEvent) (s : MgrState) : MgrState :=
  match lookupA sid s.sessions with
  | some c => { s with log := s.log ++ [⟨sid, c, ev⟩] }
  | none => s

/-- `WebSocketManager::remove_session`: drop the session's channel from the
session map, and if a process is stored for the id, remove it and kill it
(the kill result is ignored). -/
def remove_session (sid : String) (s : MgrState) : MgrState :=
  let s1 := { s with sessions := eraseA sid s.sessions }
  match lookupA sid s1.processes with
  | some _ =>
      { s1 with processes := eraseA sid s1.processes,
                killed := s1.killed ++ [sid] }
  | none => s1

/-- `WebSocketManager::store_process`. -/
def store_process (sid : String) (p : Proc) (s : MgrState) : MgrState :=
  { s with processes := insertA sid p s.processes }

/-- `WebSocketManager::cancel_process`: remove the process handle from the
map; if one was there, kill it and return whether the kill succeeded,
otherwise return `false`.  The removal happens whether or not the kill
succeeds. -/
def cancel_process (sid : String) (s : MgrState) : Bool × MgrState :=
  match lookupA sid s.processes with
  | some p =>
      (p.killOk,
       { s with processes := eraseA sid s.processes,
                killed := s.killed ++ [sid] })
  | none => (false, s)

/-- The `cancel_execution` HTTP handler: call `cancel_process`, then
unconditionally send a `{"type":"cancelled"}` message to the session, and
return the boolean in the JSON response. -/
def cancel_execution (sid : String) (s : MgrState) : Bool × MgrState :=
  let r := cancel_process sid s
  (r.1, send_to_session sid (.cancelled sid) r.2)

/-- One iteration of the stdout reader task's loop body: relay one stdout
line with `send_to_session`. -/
def relay_stdout_line (sid line : String) (s : MgrState) : MgrState :=
  send_to_session sid (.output line) s

/-- One iteration of the stderr reader task's loop body: wrap one stderr
line in a `{"type":"error"}` message and relay it. -/
def relay_stderr_line (sid line : String) (s : MgrState) : MgrState :=
  send_to_session sid (.errLine line) s

/-- The reaper task's body: remove the process from the map, wait for it,
and publish `{"type":"complete"}` or the process-error message according to
the wait result.  If the map holds no process for the id, do nothing. -/
def reaper_step (sid : String) (s : MgrState) : MgrState :=
  match lookupA sid s.processes with
  | some p =>
      let s1 := { s with processes := eraseA sid s.processes }
      match p.wait with
      | .ok success code => send_to_session sid (.complete success code) s1
      | .err msg => send_to_session sid (.failed msg) s1
  | none => s

/-- The cleanup that `handle_websocket` runs when either of its two
per-connection tasks ends: `manager.remove_session(&session_id)`. -/
def handle_websocket_cleanup (sid : String) (s : MgrState) : MgrState :=
  remove_session sid s

/-- `SessionType` from the source (`new`/`continue`/`resume` on the wire). -/
inductive SessionType : Type
  | New
  | Continue
  | Resume
deriving DecidableEq, Repr

/-- `ExecuteRequest` from the source. -/
structure ExecuteRequest where
  project_path : String
  prompt : String
  model : String
  session_type : SessionType
  session_id : Option String
deriving DecidableEq, Repr

/-- Session id selection at the top of `execute_claude_code`: for `Resume`
take the request's `session_id`, falling back to a fresh UUID; otherwise a
fresh UUID.  The fresh UUID is a parameter of the embedding. -/
def chooseSessionId : SessionType → Option String → String → String
  | .Resume, some rid, _ => rid
  | .Resume, none, fresh => fresh
  | .New, _, fresh => fresh
  | .Continue, _, fresh => fresh

/-- How a child standard stream is configured at spawn time. -/
inductive StdioCfg : Type
  | piped
  | inherited
deriving DecidableEq, Repr

/-- The full invocation `execute_claude_code` configures before `spawn()`:
program, argument vector, working directory, and the stdout/stderr
configuration. -/
structure CommandSpec where
  program : String
  args : List String
  current_dir : String
  stdout : StdioCfg
  stderr : StdioCfg
deriving DecidableEq, Repr

/-- The argument vector built in `execute_claude_code`: a mode-dependent
prefix pushed first, then the fixed tail extended onto it. -/
def buildArgs (st : SessionType) (prompt model sessionId : String) :
    List String :=
  let args : List String := []
  let args :=
    match st with
    | .New => args ++ ["-p", prompt]
    | .Continue => args ++ ["-c", "-p", prompt]
    | .Resume => args ++ ["--resume", sessionId, "-p", prompt]
  args ++ ["--model", model, "--output-format", "stream-json", "--verbose",
           "--dangerously-skip-permissions"]

/-- The command as configured in `execute_claude_code`: the resolved binary
path, the built arguments, `current_dir` set to the request's
`project_path`, and both streams piped. -/
def buildCommand (claudePath : String) (req : ExecuteRequest)
    (sessionId : String) : CommandSpec :=
  { program := claudePath
    args := buildArgs req.session_type req.prompt req.model sessionId
    current_dir := req.project_path
    stdout := .piped
    stderr := .piped }

/-- The synchronous outcome of `execute_claude_code`: the returned value
(HTTP status code on error, session id on success), the manager state after
the handler returns, and whether the stream-relay tasks and the reaper task
were spawned. -/
structure ExecOutcome where
  result : Except Nat String
  state : MgrState
  relaysSpawned : Bool
  reaperSpawned : Bool
  /-- The command configuration handed to `spawn()`, when one was built
  (i.e. when the binary was resolved). -/
  command : Option CommandSpec
deriving Repr

/-- The `execute_claude_code` handler.  The environment's behaviour is
passed in explicitly: `claudePath` is the result of `find_claude_binary`
(`none` = not found), and `spawnResult` is the result of `cmd.spawn()`
(`none` = OS-level spawn error, e.g. nonexistent working directory).  On
either failure the handler returns a 500 error before touching the maps or
spawning any task; on success it stores the process and spawns the two
relay tasks and the reaper. -/
def execute_claude_code (req : ExecuteRequest) (freshId : String)
    (claudePath : Option String) (spawnResult : Option Proc) (s : MgrState) :
    ExecOutcome :=
  let sessionId := chooseSessionId req.session_type req.session_id freshId
  match claudePath with
  | none => ⟨.error 500, s, false, false, none⟩
  | some path =>
    let cmd := buildCommand path req sessionId
    match spawnResult with
    | none => ⟨.error 500, s, false, false, some cmd⟩
    | some p =>
        let s1 := store_process sessionId p s
        ⟨.ok sessionId, s1, true, true, some cmd⟩

/-- The events a subscriber holding broadcast receiver `c` observes in a
log: exactly the entries sent on channel `c`, in log order. -/
def observedBy (c : Nat) (log : List PubEvent) : List WSEvent :=
  (log.filter (fun e => e.chan = c)).map (fun e => e.ev)

/-- Number of terminal-kind events published for a session id. -/
def terminalCount (sid : String) (log : List PubEvent) : Nat :=
  (log.filter (fun e => e.sid = sid ∧ e.ev.isTerminal)).length

/-- Number of `Cancelled` events published for a session id. -/
def cancelledCount (sid : String) (log : List PubEvent) : Nat :=
  (log.filter (fun e => e.sid = sid ∧ e.ev = .cancelled sid)).length

/-- Modelled from the spec's words (sections 4.1 and 6): the argument vector
is the mode-dependent part — New: the single-shot prompt flag with the
prompt; Continue: the continue flag plus the prompt flag; Resume: the
resume flag with the session id plus the prompt flag — followed by the
model flag with the requested model and the fixed machine-readable
streaming-output and no-approval flags; the working directory is the
request's, and both streams are captured as pipes, never inherited.  Used
only to compare against the source-derived `buildCommand`. -/
def specCommand (claudePath : String) (req : ExecuteRequest)
    (sessionId : String) : CommandSpec :=
  { program := claudePath
    args :=
      (match req.session_type with
       | .New => ["-p", req.prompt]
       | .Continue => ["-c", "-p", req.prompt]
       | .Resume => ["--resume", sessionId, "-p", req.prompt]) ++
      ["--model", req.model, "--output-format", "stream-json", "--verbose",
       "--dangerously-skip-permissions"]
    current_dir := req.project_path
    stdout := .piped
    stderr := .piped }

/-! ## Map lemmas -/

theorem lookupA_eraseA_self {α : Type} (k : String) (l : List (String × α)) :
    lookupA k (eraseA k l) = none := by
  induction l with
  | nil => rfl
  | cons hd tl ih =>
      obtain ⟨k', v⟩ := hd
      by_cases h : k' = k
      · simp [eraseA, h, ih]
      · simp [eraseA, lookupA, h, ih]

theorem lookupA_eraseA_ne {α : Type} {k k' : String} (h : k' ≠ k)
    (l : List (String × α)) : lookupA k (eraseA k' l) = lookupA k l := by
  induction l with
  | nil => rfl
  | cons hd tl ih =>
      obtain ⟨k'', v⟩ := hd
      by_cases h2 : k'' = k'
      · subst h2
        simp [eraseA, lookupA, h, ih]
      · simp [eraseA, lookupA, h2, ih]

theorem lookupA_insertA_self {α : Type} (k : String) (v : α)
    (l : List (String × α)) : lookupA k (insertA k v l) = some v := by
  simp [insertA, lookupA]

/-! ## Claim theorems -/

/-- Claim C4: For every launch request, the command configured before
`spawn()` is exactly what the spec describes: the mode-dependent argument
prefix (New: `-p prompt`; Continue: `-c -p prompt`; Resume:
`--resume sessionId -p prompt`), then the model flag with the requested
model and the fixed streaming-output/verbose/no-approval flags; working
directory = the request's `project_path`; stdout and stderr piped, never
inherited.  Stated as a refinement: the source-derived `buildCommand`
(also the command recorded by `execute_claude_code`) coincides with the
spec-derived `specCommand`. -/
theorem c4_command_matches_spec (claudePath : String) (req : ExecuteRequest)
    (sessionId freshId : String) (p : Proc) (s : MgrState) :
    buildCommand claudePath req sessionId = specCommand claudePath req sessionId ∧
    (buildCommand claudePath req sessionId).stdout = .piped ∧
    (buildCommand claudePath req sessionId).stderr = .piped ∧
    (buildCommand claudePath req sessionId).current_dir = req.project_path ∧
    (execute_claude_code req freshId (some claudePath) (some p) s).command =
      some (buildCommand claudePath req
        (chooseSessionId req.session_type req.session_id freshId)) := by
  obtain ⟨pp, pr, mo, st, si⟩ := req
  cases st <;> exact ⟨rfl, rfl, rfl, rfl, rfl⟩

/-- Claim C5: If `spawn()` fails, `execute_claude_code` returns an error
synchronously (HTTP 500, no session id), the manager state is exactly the
state before the call — in particular nothing was inserted into the
process registry, so a lookup on the attempted session id still reports it
absent — and neither the stream-relay tasks nor the reaper were started. -/
theorem c5_spawn_failure_no_partial_registration (req : ExecuteRequest)
    (freshId path : String) (s : MgrState) :
    (execute_claude_code req freshId (some path) none s).result = .error 500 ∧
    (execute_claude_code req freshId (some path) none s).state = s ∧
    (execute_claude_code req freshId (some path) none s).relaysSpawned = false ∧
    (execute_claude_code req freshId (some path) none s).reaperSpawned = false ∧
    (lookupA (chooseSessionId req.session_type req.session_id freshId)
        s.processes = none →
      lookupA (chooseSessionId req.session_type req.session_id freshId)
        (execute_claude_code req freshId (some path) none s).state.processes =
        none) :=
  ⟨rfl, rfl, rfl, rfl, fun h => h⟩

/-- A concrete New-mode request used by witnesses and counterexamples. -/
def reqNew : ExecuteRequest :=
  ⟨"/tmp/proj", "hello", "claude-3", .New, none⟩

/-- Witness for C5 at a concrete input: a failed spawn on the empty manager
leaves the state untouched and the attempted id unregistered. -/
theorem c5_spawn_failure_witness :
    (execute_claude_code reqNew "fresh-id" (some "/usr/local/bin/claude")
      none MgrState.new).state = MgrState.new ∧
    lookupA "fresh-id" (execute_claude_code reqNew "fresh-id"
      (some "/usr/local/bin/claude") none MgrState.new).state.processes =
      none := by
  have h := c5_spawn_failure_no_partial_registration reqNew "fresh-id"
    "/usr/local/bin/claude" MgrState.new
  exact ⟨h.2.1, h.2.2.2.2 (by decide)⟩

/-- Claim C7: The session identifier `execute_claude_code` returns is the
fresh UUID for New and Continue, and the caller-supplied resume id for
Resume when one is supplied; on any successful launch the returned id is
exactly `chooseSessionId` of the request. -/
theorem c7_session_id_selection (sidOpt : Option String)
    (rid fresh path : String) (p : Proc) (s : MgrState)
    (req : ExecuteRequest) :
    chooseSessionId .New sidOpt fresh = fresh ∧
    chooseSessionId .Continue sidOpt fresh = fresh ∧
    chooseSessionId .Resume (some rid) fresh = rid ∧
    (execute_claude_code req fresh (some path) (some p) s).result =
      .ok (chooseSessionId req.session_type req.session_id fresh) := by
  refine ⟨?_, ?_, rfl, rfl⟩ <;> cases sidOpt <;> rfl

/-- Claim C9: The cleanup `handle_websocket` runs whenever one of its
per-connection tasks ends — i.e. on every single subscriber disconnect,
unconditionally — removes the session's channel from the session map and,
if a process is stored for the id, removes it from the process map and
issues a kill. -/
theorem c9_disconnect_teardown (sid : String) (s : MgrState) :
    lookupA sid (handle_websocket_cleanup sid s).sessions = none ∧
    lookupA sid (handle_websocket_cleanup sid s).processes = none ∧
    (handle_websocket_cleanup sid s).killed =
      (if (lookupA sid s.processes).isSome then s.killed ++ [sid]
       else s.killed) := by
  unfold handle_websocket_cleanup remove_session
  cases h : lookupA sid s.processes <;>
    simp [h, lookupA_eraseA_self]

/-- Claim C10: `cancel_process` removes the session's process handle from the
process map whether or not the kill succeeds: the call returns the kill
outcome (`false` on a failed kill), the handle is gone afterwards, and a
second `cancel_process` on the same id returns `false`. -/
theorem c10_removal_persists_on_failed_kill (sid : String) (s : MgrState)
    (p : Proc) (h : lookupA sid s.processes = some p) :
    (cancel_process sid s).1 = p.killOk ∧
    lookupA sid ((cancel_process sid s).2).processes = none ∧
    (cancel_process sid ((cancel_process sid s).2)).1 = false := by
  unfold cancel_process
  rw [h]
  refine ⟨rfl, lookupA_eraseA_self sid s.processes, ?_⟩
  rw [lookupA_eraseA_self sid s.processes]

/-- A process whose kill signal fails and whose wait reports a clean
exit. -/
def procBadKill : Proc := ⟨false, .ok true (some 0)⟩

/-- A manager state holding only `procBadKill` under id `"w10"`. -/
def sC10 : MgrState := ⟨[], [("w10", procBadKill)], 0, [], []⟩

/-- Witness for C10 at a concrete input: even when the kill fails (first
call returns `false`), the handle is removed and the second call returns
`false`. -/
theorem c10_removal_witness :
    (cancel_process "w10" sC10).1 = procBadKill.killOk ∧
    lookupA "w10" ((cancel_process "w10" sC10).2).processes = none ∧
    (cancel_process "w10" ((cancel_process "w10" sC10).2)).1 = false :=
  c10_removal_persists_on_failed_kill "w10" sC10 procBadKill (by decide)

/-- A process whose kill succeeds and whose wait reports success with exit
code 0. -/
def procOk : Proc := ⟨true, .ok true (some 0)⟩

/-- Scenario for C1: a subscriber attaches (receiver 0), a process is
stored, the reaper publishes the terminal `complete` event, and then
`cancel_execution` is called on the finished session. -/
def traceC1 : MgrState :=
  (cancel_execution "s"
    (reaper_step "s"
      (store_process "s" procOk
        (register_session "s" MgrState.new).2))).2

/-- Claim C1, counterexample: The claim — at most one terminal-kind event per
session, the terminal event last, and no event published after the reaper's
terminal event — is false: after the reaper publishes `complete`, a later
`cancel_execution` on the same id publishes a further `cancelled` event,
because the channel is still registered and `cancel_execution` sends
unconditionally.  The connected subscriber (receiver 0) observes two
terminal-kind events, and `complete` is not last. -/
theorem c1_counterexample :
    ¬ terminalCount "s" traceC1.log ≤ 1 ∧
    observedBy 0 traceC1.log =
      [.complete true (some 0), .cancelled "s"] := by
  refine ⟨?_, by decide⟩
  decide

/-- Claim C1, amended: The reaper itself publishes at most one terminal event
per stored process — it removes the process from the map before waiting,
so once the process is gone a reaper invocation publishes nothing — but
`cancel_execution` publishes a `cancelled` event whenever a channel is
still registered for the id, even after a terminal event: it returns
`false` yet appends one more event to the session's stream. -/
theorem c1_amended_terminal_not_final (sid : String) (c : Nat) (s : MgrState)
    (hproc : lookupA sid s.processes = none)
    (hchan : lookupA sid s.sessions = some c) :
    reaper_step sid s = s ∧
    (cancel_execution sid s).1 = false ∧
    (cancel_execution sid s).2.log = s.log ++ [⟨sid, c, .cancelled sid⟩] := by
  refine ⟨?_, ?_, ?_⟩
  · unfold reaper_step
    rw [hproc]
  · unfold cancel_execution cancel_process
    rw [hproc]
  · simp [cancel_execution, cancel_process, send_to_session, hproc, hchan]

/-- A finished session: its channel (receiver 5) is still registered but
its process is gone. -/
def sC1w : MgrState := ⟨[("w1", 5)], [], 6, [], []⟩

/-- Witness for the amended C1 at a concrete input. -/
theorem c1_amended_witness :
    reaper_step "w1" sC1w = sC1w ∧
    (cancel_execution "w1" sC1w).1 = false ∧
    (cancel_execution "w1" sC1w).2.log =
      sC1w.log ++ [⟨"w1", 5, .cancelled "w1"⟩] :=
  c1_amended_terminal_not_final "w1" 5 sC1w (by decide) (by decide)

/-- Scenario for C2: a New-mode launch succeeds on the empty manager, with
no WebSocket subscriber attached. -/
def execC2 : ExecOutcome :=
  execute_claude_code reqNew "fresh-uuid" (some "/usr/local/bin/claude")
    (some procOk) MgrState.new

/-- Claim C2, counterexample: The claim — the event channel exists strictly
before the stream relays begin reading — is false: `execute_claude_code`
spawns the relay tasks while the session map holds no channel for the new
id (the channel is only created by `register_session` when a WebSocket
attaches, and for a freshly generated id no subscriber can have attached
yet).  A stdout line relayed at that point is silently dropped. -/
theorem c2_counterexample :
    execC2.relaysSpawned = true ∧
    lookupA "fresh-uuid" execC2.state.sessions = none ∧
    relay_stdout_line "fresh-uuid" "line1" execC2.state = execC2.state := by
  refine ⟨rfl, by decide, by decide⟩

/-- Claim C2, amended: The channel for a session is created only when a
subscriber attaches (`register_session` inside `handle_websocket`), not
before the relay tasks start: a relayed stdout line is dropped without a
trace while no channel is registered for the id, is delivered to the
registered channel otherwise, and `register_session` is what makes the
channel exist. -/
theorem c2_amended_channel_created_on_attach (sid line : String)
    (s : MgrState) :
    (lookupA sid s.sessions = none → relay_stdout_line sid line s = s) ∧
    (∀ c, lookupA sid s.sessions = some c →
      (relay_stdout_line sid line s).log =
        s.log ++ [⟨sid, c, .output line⟩]) ∧
    lookupA sid ((register_session sid s).2).sessions =
      some (register_session sid s).1 := by
  refine ⟨?_, ?_, ?_⟩
  · intro h
    unfold relay_stdout_line send_to_session
    rw [h]
  · intro c hc
    unfold relay_stdout_line send_to_session
    rw [hc]
  · exact lookupA_insertA_self sid s.nextChan s.sessions

/-- A manager with a channel (receiver 0) registered for `"w2"`. -/
def sC2w : MgrState := (register_session "w2" MgrState.new).2

/-- Witness for the amended C2 at concrete inputs: a line is dropped when
no channel is registered, and delivered once one is. -/
theorem c2_amended_witness :
    relay_stdout_line "w2" "line" MgrState.new = MgrState.new ∧
    (relay_stdout_line "w2" "line" sC2w).log =
      sC2w.log ++ [⟨"w2", 0, .output "line"⟩] :=
  ⟨(c2_amended_channel_created_on_attach "w2" "line" MgrState.new).1
     (by decide),
   (c2_amended_channel_created_on_attach "w2" "line" sC2w).2.1 0 (by decide)⟩

/-- Scenario for C3: a subscriber attaches (receiver 0) and a killable
process is stored for `"s"`. -/
def sC3 : MgrState :=
  store_process "s" procOk (register_session "s" MgrState.new).2

/-- Claim C3, counterexample: The claim — of two cancel calls on the same id
the second is a no-op and exactly one `Cancelled` event is published — is
false: the booleans behave as claimed (first `true`, second `false`), but
each `cancel_execution` call sends the `cancelled` message
unconditionally, so two calls publish two `Cancelled` events. -/
theorem c3_counterexample :
    (cancel_execution "s" sC3).1 = true ∧
    (cancel_execution "s" (cancel_execution "s" sC3).2).1 = false ∧
    cancelledCount "s"
      ((cancel_execution "s" (cancel_execution "s" sC3).2).2).log = 2 := by
  refine ⟨by decide, by decide, by decide⟩

/-- Claim C3, amended: `cancel_execution` returns `true` exactly when a live
process was found and the kill succeeded; a second call on the same id
returns `false` (the handle was removed by the first); but each call
publishes a `Cancelled` event while the channel remains registered, so two
cancel calls publish two `Cancelled` events rather than one. -/
theorem c3_amended_second_cancel (sid : String) (p : Proc) (c : Nat)
    (s : MgrState) (hproc : lookupA sid s.processes = some p)
    (hchan : lookupA sid s.sessions = some c) :
    (cancel_execution sid s).1 = p.killOk ∧
    (cancel_execution sid (cancel_execution sid s).2).1 = false ∧
    ((cancel_execution sid (cancel_execution sid s).2).2).log =
      s.log ++ [⟨sid, c, .cancelled sid⟩, ⟨sid, c, .cancelled sid⟩] := by
  have h1 : cancel_execution sid s =
      (p.killOk,
       ⟨s.sessions, eraseA sid s.processes, s.nextChan,
        s.log ++ [⟨sid, c, .cancelled sid⟩], s.killed ++ [sid]⟩) := by
    unfold cancel_execution cancel_process
    rw [hproc]
    unfold send_to_session
    simp only []
    rw [hchan]
  rw [h1]
  refine ⟨rfl, ?_, ?_⟩
  · unfold cancel_execution cancel_process
    rw [lookupA_eraseA_self sid s.processes]
  · unfold cancel_execution cancel_process
    rw [lookupA_eraseA_self sid s.processes]
    unfold send_to_session
    simp only []
    rw [hchan]
    simp

/-- Witness for the amended C3 at a concrete input. -/
theorem c3_amended_witness :
    (cancel_execution "s" sC3).1 = procOk.killOk ∧
    (cancel_execution "s" (cancel_execution "s" sC3).2).1 = false ∧
    ((cancel_execution "s" (cancel_execution "s" sC3).2).2).log =
      sC3.log ++ [⟨"s", 0, .cancelled "s"⟩, ⟨"s", 0, .cancelled "s"⟩] :=
  c3_amended_second_cancel "s" procOk 0 sC3 (by decide) (by decide)

/-- A session whose subscriber (receiver 0) is still attached but whose
process is gone (e.g. already reaped). -/
def sC6 : MgrState := (register_session "s6" MgrState.new).2

/-- Claim C6, counterexample: The claim — cancel on an id with no live
process returns `false` and leaves all state unchanged, publishing no
event on any channel — is false: when a channel is still registered for
the id, `cancel_execution` publishes a `cancelled` event on it even though
no process was found. -/
theorem c6_counterexample :
    (cancel_execution "s6" sC6).1 = false ∧
    (cancel_execution "s6" sC6).2.log = [⟨"s6", 0, .cancelled "s6"⟩] := by
  refine ⟨by decide, by decide⟩

/-- Claim C6, amended: Cancel on an id with no live process returns `false`
and leaves the session map, process map and kill record unchanged; it
publishes nothing only when no channel is registered for the id (then the
whole state is unchanged) — when a channel is registered, one `cancelled`
event is published on it. -/
theorem c6_amended_cancel_no_process (sid : String) (s : MgrState)
    (hproc : lookupA sid s.processes = none) :
    (cancel_execution sid s).1 = false ∧
    (cancel_execution sid s).2.sessions = s.sessions ∧
    (cancel_execution sid s).2.processes = s.processes ∧
    (cancel_execution sid s).2.killed = s.killed ∧
    (lookupA sid s.sessions = none → (cancel_execution sid s).2 = s) ∧
    (∀ c, lookupA sid s.sessions = some c →
      (cancel_execution sid s).2.log =
        s.log ++ [⟨sid, c, .cancelled sid⟩]) := by
  have h1 : cancel_execution sid s =
      (false, send_to_session sid (.cancelled sid) s) := by
    unfold cancel_execution cancel_process
    rw [hproc]
  rw [h1]
  unfold send_to_session
  cases hl : lookupA sid s.sessions with
  | none =>
      exact ⟨rfl, rfl, rfl, rfl, fun _ => rfl, fun c hc => by cases hc⟩
  | some c =>
      refine ⟨rfl, rfl, rfl, rfl, ?_, ?_⟩
      · intro h0
        cases h0
      · intro c' hc
        cases hc
        rfl

/-- Witness for the amended C6 at concrete inputs: a fully unknown id has
no effect at all; an id with a channel but no process gets one `cancelled`
event. -/
theorem c6_amended_witness :
    (cancel_execution "nope" MgrState.new).2 = MgrState.new ∧
    (cancel_execution "s6" sC6).2.log =
      sC6.log ++ [⟨"s6", 0, .cancelled "s6"⟩] :=
  ⟨(c6_amended_cancel_no_process "nope" MgrState.new (by decide)).2.2.2.2.1
     (by decide),
   (c6_amended_cancel_no_process "s6" sC6 (by decide)).2.2.2.2.2 0
     (by decide)⟩

/-- Scenario for C8: subscriber A attaches to `"s"` (receiver 0), then
subscriber B attaches to the same id (receiver 1), then the stdout relay
publishes one line. -/
def traceC8 : MgrState :=
  relay_stdout_line "s" "line1"
    (register_session "s" (register_session "s" MgrState.new).2).2

/-- Claim C8, counterexample: The claim — two simultaneously attached
subscribers to the same session both observe every Output event published
after their attachment — is false: the second `register_session` replaces
the session's channel, so the line published after both attachments
reaches only subscriber B (receiver 1); subscriber A (receiver 0) observes
nothing. -/
theorem c8_counterexample :
    traceC8.log = [⟨"s", 1, .output "line1"⟩] ∧
    observedBy 0 traceC8.log = [] ∧
    observedBy 1 traceC8.log = [.output "line1"] := by
  refine ⟨by decide, by decide, by decide⟩

/-- Claim C8, amended: A second `register_session` on the same id allocates a
distinct fresh channel and replaces the first in the session map, so an
Output line published afterwards is delivered on the second subscriber's
channel only: the first subscriber's observations are unchanged by it. -/
theorem c8_amended_second_attach_steals_stream (sid line : String)
    (s : MgrState) :
    (register_session sid s).1 ≠
      (register_session sid (register_session sid s).2).1 ∧
    (relay_stdout_line sid line
        (register_session sid (register_session sid s).2).2).log =
      ((register_session sid (register_session sid s).2).2).log ++
        [⟨sid, (register_session sid (register_session sid s).2).1,
          .output line⟩] ∧
    observedBy (register_session sid s).1
        (relay_stdout_line sid line
          (register_session sid (register_session sid s).2).2).log =
      observedBy (register_session sid s).1
        ((register_session sid (register_session sid s).2).2).log := by
  refine ⟨by simp [register_session], ?_, ?_⟩
  · unfold relay_stdout_line send_to_session register_session
    simp only []
    rw [lookupA_insertA_self]
  · unfold relay_stdout_line send_to_session register_session
    simp only []
    rw [lookupA_insertA_self]
    simp [observedBy, List.filter_append]

end Opcode
